import Mathlib

/-!
Verification of the MPL311 barometric pressure / altitude / temperature
sensor driver (`src/src/mpl311.cpp`).

The driver talks to the sensor over a two-wire bus.  We embed the driver
shallowly: each C++ member function becomes a Lean function over an explicit
state `St` holding the simulated device registers, the driver's tracked
sensing mode, and the trace of bus transactions issued so far.  Bus failures
are injected through a set of failing transaction indices stored in the
simulated device.  Bytes are natural numbers; the float conversions of the
driver are modelled over `ℚ` (all values involved are exactly representable
in single-precision floats, so `ℚ` is a faithful model of the float results).

Unbounded C++ polling loops (`while (1) ...`) receive a fuel parameter; fuel
exhaustion is reported as a distinct `timeout` outcome that the C++ code
cannot produce (it would spin forever), so theorems about results other than
`timeout` are faithful to the C++ behaviour.
-/

namespace Mpl311

/-- Register address of the identity (WHOAMI) register.  The register
constants live in the driver's header, which is not part of src; their
values are modelled from the spec's register map (MPL3115A2). -/
def WHOAMI_R : Nat := 0x0C

/-- Register address of control register 1.  Modelled from the spec (header
not in src). -/
def CTRL_REG1 : Nat := 0x26

/-- Register address of the status register.  Modelled from the spec. -/
def STATUS_R : Nat := 0x00

/-- Register address of the temperature output MSB.  Modelled from the spec. -/
def OUT_T_MSB_R : Nat := 0x04

/-- Register address of the pressure/altitude output MSB.  Modelled from the
spec. -/
def OUT_P_MSB_R : Nat := 0x01

/-- Register address of the data-ready configuration register.  Modelled from
the spec. -/
def PT_DATA_CFG_R : Nat := 0x13

/-- Register address of the sea-level-pressure input MSB.  Modelled from the
spec. -/
def BAR_IN_MSB_R : Nat := 0x14

/-- Register address of the altitude-offset register.  Modelled from the
spec. -/
def OFF_H_R : Nat := 0x2D

/-- Software-reset bit of control register 1.  Modelled from the spec. -/
def CTRL_REG1_RST : Nat := 0x04

/-- One-shot-trigger bit of control register 1.  Modelled from the spec. -/
def CTRL_REG1_OST : Nat := 0x02

/-- Oversample-ratio-128 bits of control register 1.  Modelled from the
spec. -/
def CTRL_REG1_OS128 : Nat := 0x38

/-- Altimeter-mode bit (bit 7) of control register 1.  Modelled from the
spec; the driver source itself also hard-codes bit 7 (`1UL << 7`) in
`set_mode`. -/
def CTRL_REG1_ALT : Nat := 0x80

/-- Pressure/temperature data-ready bit of the status register.  Modelled
from the spec. -/
def STATUS_PTDR : Nat := 0x08

/-- Temperature data-ready-event enable bit.  Modelled from the spec. -/
def PT_DATA_CFG_TDEFE : Nat := 0x01

/-- Pressure data-ready-event enable bit.  Modelled from the spec. -/
def PT_DATA_CFG_PDEFE : Nat := 0x02

/-- Data-ready-event-mode enable bit.  Modelled from the spec. -/
def PT_DATA_CFG_DREM : Nat := 0x04

/-- The driver's sensing-mode enumeration (`mpl311_mode_t`):
`BAROMETER_M = 0`, `ALTIMETER_M = 1`. -/
inductive Mode where
  | BAROMETER_M
  | ALTIMETER_M
deriving DecidableEq, Repr

/-- The simulated device: register contents plus a set of transaction
indices at which the bus fails (to model transport errors). -/
structure Dev where
  whoami : Nat
  ctrl : Nat
  status : Nat
  outT0 : Nat
  outT1 : Nat
  outP0 : Nat
  outP1 : Nat
  outP2 : Nat
  failAt : List Nat
deriving DecidableEq, Repr

/-- A bus transaction as issued by the driver: a plain write of a byte
sequence, or a combined write-then-read requesting `len` bytes. -/
inductive Tx where
  | write (bytes : List Nat)
  | writeThenRead (wbytes : List Nat) (len : Nat)
deriving DecidableEq, Repr

/-- Errors visible to the driver: a failed bus transaction, or fuel
exhaustion of a modelled polling loop (the C++ loops are unbounded). -/
inductive Err where
  | busError
  | timeout
deriving DecidableEq, Repr

/-- Errors of the spec-level `create` operation. -/
inductive CreateErr where
  | UnexpectedDevice
  | BusError
  | Timeout
deriving DecidableEq, Repr

/-- Full state threaded through the embedded driver: simulated device,
tracked sensing mode (`sensor_mode`), number of transactions issued so far,
and the trace of all issued transactions. -/
structure St where
  dev : Dev
  mode : Mode
  txCount : Nat
  trace : List Tx
deriving DecidableEq, Repr

/-- Byte stream returned by the device when a read starts at register `r`
(the device auto-increments the register address). -/
def Dev.regStream (d : Dev) (r : Nat) : List Nat :=
  if r = WHOAMI_R then [d.whoami]
  else if r = CTRL_REG1 then [d.ctrl]
  else if r = STATUS_R then [d.status]
  else if r = OUT_T_MSB_R then [d.outT0, d.outT1]
  else if r = OUT_P_MSB_R then [d.outP0, d.outP1, d.outP2]
  else []

/-- Device reaction to a register write.  Only control register 1 is
tracked.  Modelled from the spec: the reset bit (0x04) and the one-shot bit
(0x02) are self-clearing on the device, so the model clears them at write
time (this is what lets the reset-poll and one-shot-poll loops observe
completion); stored bytes are truncated to 8 bits. -/
def writeReg (d : Dev) (bytes : List Nat) : Dev :=
  match bytes with
  | r :: v :: _ =>
      if r = CTRL_REG1 then { d with ctrl := (v &&& 0xF9) % 256 } else d
  | _ => d

/-- Issue one bus transaction: bump the transaction counter, append the
transaction to the trace, fail if the transaction index is in the failure
set, otherwise apply the write to the device and/or return the read bytes. -/
def runTx (t : Tx) (s : St) : Except Err (List Nat) × St :=
  let ok? := decide (s.txCount ∈ s.dev.failAt) = false
  let dev' : Dev :=
    match t with
    | Tx.write bytes => if ok? then writeReg s.dev bytes else s.dev
    | Tx.writeThenRead _ _ => s.dev
  let res : Except Err (List Nat) :=
    if ok? then
      match t with
      | Tx.write _ => Except.ok []
      | Tx.writeThenRead wbytes len =>
          match wbytes with
          | [r] => Except.ok ((s.dev.regStream r).take len)
          | _ => Except.ok []
    else Except.error Err.busError
  (res, { dev := dev', mode := s.mode, txCount := s.txCount + 1,
          trace := s.trace ++ [t] })

/-- The reset-complete polling loop of `mpl311::begin` (lines 20-28):
read control register 1 until the reset bit is clear. -/
def pollRstClear : Nat → St → Except Err Unit × St
  | 0, s => (Except.error Err.timeout, s)
  | Nat.succ fuel, s =>
      match runTx (Tx.writeThenRead [CTRL_REG1] 1) s with
      | (Except.error e, s1) => (Except.error e, s1)
      | (Except.ok buf, s1) =>
          if buf.getD 0 0 &&& CTRL_REG1_RST = 0 then (Except.ok (), s1)
          else pollRstClear fuel s1

/-- `mpl311::begin`: WHOAMI check (returning `false` on mismatch), software
reset plus reset-complete poll, set `sensor_mode` to altimeter, write
OS128 plus ALT to control register 1, enable data-ready events. -/
def begin (fuel : Nat) (s : St) : Except Err Bool × St :=
  match runTx (Tx.writeThenRead [WHOAMI_R] 1) s with
  | (Except.error e, s1) => (Except.error e, s1)
  | (Except.ok buf, s1) =>
    if buf.getD 0 0 ≠ 0xC4 then (Except.ok false, s1)
    else
      match runTx (Tx.write [CTRL_REG1, CTRL_REG1_RST]) s1 with
      | (Except.error e, s2) => (Except.error e, s2)
      | (Except.ok _, s2) =>
        match pollRstClear fuel s2 with
        | (Except.error e, s3) => (Except.error e, s3)
        | (Except.ok _, s3) =>
          let s4 : St := { s3 with mode := Mode.ALTIMETER_M }
          match runTx (Tx.write [CTRL_REG1, CTRL_REG1_OS128 ||| CTRL_REG1_ALT]) s4 with
          | (Except.error e, s5) => (Except.error e, s5)
          | (Except.ok _, s5) =>
            match runTx (Tx.write [PT_DATA_CFG_R,
                PT_DATA_CFG_TDEFE ||| PT_DATA_CFG_PDEFE ||| PT_DATA_CFG_DREM]) s5 with
            | (Except.error e, s6) => (Except.error e, s6)
            | (Except.ok _, s6) => (Except.ok true, s6)

/-- The byte `-mode` restricted to the low 8 bits (the C++ code masks it
with `1UL << 7`, so only the low byte matters): 0 for barometer mode,
255 (two's complement of -1) for altimeter mode. -/
def negByte : Mode → Nat
  | Mode.BAROMETER_M => 0
  | Mode.ALTIMETER_M => 255

/-- The byte written back by `mpl311::set_mode` (line 56):
`ctrl_buffer[0] ^ ((-mode ^ ctrl_buffer[0]) & (1UL << 7))`. -/
def modeByte (b : Nat) (m : Mode) : Nat :=
  b ^^^ ((negByte m ^^^ b) &&& (1 <<< 7))

/-- `mpl311::set_mode`: read control register 1, force its bit 7 to the
requested mode, write it back, record the new mode in `sensor_mode`. -/
def set_mode (m : Mode) (s : St) : Except Err Unit × St :=
  match runTx (Tx.writeThenRead [CTRL_REG1] 1) s with
  | (Except.error e, s1) => (Except.error e, s1)
  | (Except.ok buf, s1) =>
    match runTx (Tx.write [CTRL_REG1, modeByte (buf.getD 0 0) m]) s1 with
    | (Except.error e, s2) => (Except.error e, s2)
    | (Except.ok _, s2) => (Except.ok (), { s2 with mode := m })

/-- The one-shot-clear polling loop of `mpl311::initiate_one_shot`
(lines 66-74); returns the last byte read from control register 1. -/
def pollOstClear : Nat → St → Except Err Nat × St
  | 0, s => (Except.error Err.timeout, s)
  | Nat.succ fuel, s =>
      match runTx (Tx.writeThenRead [CTRL_REG1] 1) s with
      | (Except.error e, s1) => (Except.error e, s1)
      | (Except.ok buf, s1) =>
          if buf.getD 0 0 &&& CTRL_REG1_OST = 0 then (Except.ok (buf.getD 0 0), s1)
          else pollOstClear fuel s1

/-- `mpl311::initiate_one_shot`: wait until the one-shot bit is clear, then
write the read byte with the one-shot bit (`1UL << 1`) set. -/
def initiate_one_shot (fuel : Nat) (s : St) : Except Err Unit × St :=
  match pollOstClear fuel s with
  | (Except.error e, s1) => (Except.error e, s1)
  | (Except.ok b, s1) =>
    match runTx (Tx.write [CTRL_REG1, b ||| (1 <<< 1)]) s1 with
    | (Except.error e, s2) => (Except.error e, s2)
    | (Except.ok _, s2) => (Except.ok (), s2)

/-- `mpl311::check_data_ready_flag`: read the status register and test the
pressure/temperature data-ready bit. -/
def check_data_ready_flag (s : St) : Except Err Bool × St :=
  match runTx (Tx.writeThenRead [STATUS_R] 1) s with
  | (Except.error e, s1) => (Except.error e, s1)
  | (Except.ok buf, s1) => (Except.ok (buf.getD 0 0 &&& STATUS_PTDR != 0), s1)

/-- The data-ready delay loop (`while (!check_data_ready_flag()) delay`)
shared by the three measurement reads. -/
def pollDataReady : Nat → St → Except Err Unit × St
  | 0, s => (Except.error Err.timeout, s)
  | Nat.succ fuel, s =>
      match check_data_ready_flag s with
      | (Except.error e, s1) => (Except.error e, s1)
      | (Except.ok true, s1) => (Except.ok (), s1)
      | (Except.ok false, s1) => pollDataReady fuel s1

/-- Conversion of a natural number to a signed 16-bit value, as performed by
the C++ narrowing of an `int` in 0..65535 to `int16_t`. -/
def toInt16 (n : Nat) : Int :=
  if n % 65536 < 32768 then (n % 65536 : Int) else (n % 65536 : Int) - 65536

/-- The raw-temperature assembly of `mpl311::t_read` (lines 105-107):
`int16_t temp_reading = uint16_t(temp_buffer[0]) << 8 | uint16_t(temp_buffer[4])`
then division by 256.0f.  Note the source indexes `temp_buffer[4]` although
`temp_buffer` has 2 elements; out-of-bounds indexing is modelled as `none`. -/
def t_assemble (buf : List Nat) : Option ℚ :=
  match buf.get? 0, buf.get? 4 with
  | some msb, some lsb => some ((toInt16 (msb <<< 8 ||| lsb) : ℚ) / 256)
  | _, _ => none

/-- The raw-pressure assembly of `mpl311::p_read` (lines 127-129):
`uint32_t(b0) << 16 | uint32_t(b1) << 8 | uint32_t(b2)` (32-bit unsigned
arithmetic) then division by 64.0f. -/
def p_assemble (b0 b1 b2 : Nat) : ℚ :=
  (((b0 <<< 16 ||| b1 <<< 8 ||| b2) % 4294967296 : Nat) : ℚ) / 64

/-- The raw-altitude assembly of `mpl311::a_read` (lines 151-153):
`uint32_t(b0) << 24 | uint32_t(b1) << 16 | uint32_t(b2) << 8` (32-bit
UNSIGNED arithmetic, per the declared type `uint32_t alt_reading`) then
division by 65536.0f.  The source names the indexed array `buffer` while
the declared local is `alt_buffer`; we read it as the declared buffer. -/
def a_assemble (b0 b1 b2 : Nat) : ℚ :=
  (((b0 <<< 24 ||| b1 <<< 16 ||| b2 <<< 8) % 4294967296 : Nat) : ℚ) / 65536

/-- `mpl311::t_read`: one-shot trigger, data-ready poll, then a 2-byte read
from the temperature output registers, assembled by `t_assemble`. -/
def t_read (fuel : Nat) (s : St) : Except Err (Option ℚ) × St :=
  match initiate_one_shot fuel s with
  | (Except.error e, s1) => (Except.error e, s1)
  | (Except.ok _, s1) =>
    match pollDataReady fuel s1 with
    | (Except.error e, s2) => (Except.error e, s2)
    | (Except.ok _, s2) =>
      match runTx (Tx.writeThenRead [OUT_T_MSB_R] 2) s2 with
      | (Except.error e, s3) => (Except.error e, s3)
      | (Except.ok buf, s3) => (Except.ok (t_assemble buf), s3)

/-- The prefix of `mpl311::p_read` before the data-ready poll: switch to
barometer mode if the tracked mode differs, then trigger a one-shot. -/
def p_pre (fuel : Nat) (s : St) : Except Err Unit × St :=
  match (if s.mode ≠ Mode.BAROMETER_M then set_mode Mode.BAROMETER_M s
         else (Except.ok (), s)) with
  | (Except.error e, s1) => (Except.error e, s1)
  | (Except.ok _, s1) => initiate_one_shot fuel s1

/-- `mpl311::p_read`: mode switch if needed, one-shot trigger, data-ready
poll, then a 3-byte read from the pressure output registers, assembled by
`p_assemble`. -/
def p_read (fuel : Nat) (s : St) : Except Err ℚ × St :=
  match p_pre fuel s with
  | (Except.error e, s1) => (Except.error e, s1)
  | (Except.ok _, s1) =>
    match pollDataReady fuel s1 with
    | (Except.error e, s2) => (Except.error e, s2)
    | (Except.ok _, s2) =>
      match runTx (Tx.writeThenRead [OUT_P_MSB_R] 3) s2 with
      | (Except.error e, s3) => (Except.error e, s3)
      | (Except.ok buf, s3) =>
          (Except.ok (p_assemble (buf.getD 0 0) (buf.getD 1 0) (buf.getD 2 0)), s3)

/-- The prefix of `mpl311::a_read` before the data-ready poll: switch to
altimeter mode if the tracked mode differs, then trigger a one-shot. -/
def a_pre (fuel : Nat) (s : St) : Except Err Unit × St :=
  match (if s.mode ≠ Mode.ALTIMETER_M then set_mode Mode.ALTIMETER_M s
         else (Except.ok (), s)) with
  | (Except.error e, s1) => (Except.error e, s1)
  | (Except.ok _, s1) => initiate_one_shot fuel s1

/-- `mpl311::a_read`: mode switch if needed, one-shot trigger, data-ready
poll, then a 3-byte read from the output registers, assembled by
`a_assemble`. -/
def a_read (fuel : Nat) (s : St) : Except Err ℚ × St :=
  match a_pre fuel s with
  | (Except.error e, s1) => (Except.error e, s1)
  | (Except.ok _, s1) =>
    match pollDataReady fuel s1 with
    | (Except.error e, s2) => (Except.error e, s2)
    | (Except.ok _, s2) =>
      match runTx (Tx.writeThenRead [OUT_P_MSB_R] 3) s2 with
      | (Except.error e, s3) => (Except.error e, s3)
      | (Except.ok buf, s3) =>
          (Except.ok (a_assemble (buf.getD 0 0) (buf.getD 1 0) (buf.getD 2 0)), s3)

/-- The C++ conversion `uint16_t bar = sea_level_pressure / 2` applied to a
rational: truncation toward zero (`Int.div`), then reduction to 16 bits. -/
def f2u16 (q : ℚ) : Nat := (Int.tdiv q.num (q.den : Int)).toNat % 65536

/-- `mpl311::set_sea_pressure`: divide the input by 2, truncate to a 16-bit
unsigned value, and write its high byte then low byte to the
sea-level-pressure input registers in one transaction. -/
def set_sea_pressure (p : ℚ) (s : St) : Except Err Unit × St :=
  let bar := f2u16 (p / 2)
  match runTx (Tx.write [BAR_IN_MSB_R, bar >>> 8, bar &&& 0xFF]) s with
  | (Except.error e, s1) => (Except.error e, s1)
  | (Except.ok _, s1) => (Except.ok (), s1)

/-- `mpl311::set_altitude_offset`: write the offset byte (two's complement
of the signed 8-bit argument) to the altitude-offset register. -/
def set_altitude_offset (off : Int) (s : St) : Except Err Unit × St :=
  match runTx (Tx.write [OFF_H_R, (off % 256).toNat]) s with
  | (Except.error e, s1) => (Except.error e, s1)
  | (Except.ok _, s1) => (Except.ok (), s1)

/-- Initial driver state attached to a device: no transactions issued yet,
`sensor_mode` at its zero-initialised value (barometer). -/
def St.init (d : Dev) : St :=
  { dev := d, mode := Mode.BAROMETER_M, txCount := 0, trace := [] }

/-- Modelled from the spec: `create` (declared in the header under
`src/include` and defined in repository code not under src) runs the
initialisation sequence of `mpl311::begin` and maps its outcomes to the
spec's error kinds; an identity-byte mismatch yields `UnexpectedDevice`. -/
def create (fuel : Nat) (d : Dev) : Except CreateErr Unit × St :=
  match begin fuel (St.init d) with
  | (Except.ok true, s) => (Except.ok (), s)
  | (Except.ok false, s) => (Except.error CreateErr.UnexpectedDevice, s)
  | (Except.error Err.busError, s) => (Except.error CreateErr.BusError, s)
  | (Except.error Err.timeout, s) => (Except.error CreateErr.Timeout, s)

/-- The bytes written to control register 1 by the transactions of a trace,
in order. -/
def ctrlWrites : List Tx → List Nat
  | [] => []
  | Tx.write (r :: v :: _) :: ts =>
      if r = CTRL_REG1 then v :: ctrlWrites ts else ctrlWrites ts
  | _ :: ts => ctrlWrites ts

/-- The altitude-mode bit value corresponding to a sensing mode. -/
def modeBit : Mode → Bool
  | Mode.BAROMETER_M => false
  | Mode.ALTIMETER_M => true

/-- The mode-tracking invariant: the simulated control register (which the
model keeps equal to the last byte written to it, with the self-clearing
bits cleared) is a byte whose altitude-mode bit agrees with the driver's
tracked `sensor_mode`. -/
def Inv (s : St) : Prop :=
  s.dev.ctrl < 256 ∧ s.dev.ctrl.testBit 7 = modeBit s.mode

/-- A healthy simulated device: correct identity byte, reset complete,
data ready, temperature bytes 0x1A 0x00, pressure bytes 0x01 0x00 0x00,
no injected bus failures. -/
def devGood : Dev :=
  { whoami := 0xC4, ctrl := 0, status := 0x08, outT0 := 0x1A, outT1 := 0,
    outP0 := 1, outP1 := 0, outP2 := 0, failAt := [] }

/-- A simulated device whose identity register reads 0x00 instead of
0xC4. -/
def devBad : Dev :=
  { devGood with whoami := 0 }

/-- A healthy device state already tracked in barometer mode. -/
def stB : St := St.init devGood

/-- A healthy device state already tracked in altimeter mode, with altitude
output bytes 0xFF 0xFF 0x00 (a negative 20-bit raw altitude). -/
def stA : St :=
  { dev := { devGood with outP0 := 0xFF, outP1 := 0xFF, outP2 := 0 },
    mode := Mode.ALTIMETER_M, txCount := 0, trace := [] }

/-- A healthy device state in barometer mode whose third transaction
(the first status-register read of the data-ready poll) fails on the bus. -/
def stFail : St := St.init { devGood with failAt := [2] }

/-! ### Basic lemmas about single transactions -/

theorem runTx_trace (t : Tx) (s : St) :
    ((runTx t s).2).trace = s.trace ++ [t] := rfl

theorem runTx_mode (t : Tx) (s : St) :
    ((runTx t s).2).mode = s.mode := rfl

theorem runTx_dev_read (w : List Nat) (n : Nat) (s : St) :
    ((runTx (Tx.writeThenRead w n) s).2).dev = s.dev := rfl

theorem regStream_ctrl (d : Dev) : d.regStream CTRL_REG1 = [d.ctrl] := rfl

theorem regStream_whoami (d : Dev) : d.regStream WHOAMI_R = [d.whoami] := rfl

theorem regStream_status (d : Dev) : d.regStream STATUS_R = [d.status] := rfl

theorem regStream_outT (d : Dev) :
    d.regStream OUT_T_MSB_R = [d.outT0, d.outT1] := rfl

theorem regStream_outP (d : Dev) :
    d.regStream OUT_P_MSB_R = [d.outP0, d.outP1, d.outP2] := rfl

theorem writeReg_shape (d : Dev) (b : List Nat) :
    ∃ c, writeReg d b = { d with ctrl := c } := by
  match b with
  | [] => exact ⟨d.ctrl, rfl⟩
  | [r] => exact ⟨d.ctrl, rfl⟩
  | r :: v :: rest =>
      by_cases h : r = CTRL_REG1
      · exact ⟨(v &&& 0xF9) % 256, by simp only [writeReg, if_pos h]⟩
      · exact ⟨d.ctrl, by simp only [writeReg, if_neg h]⟩

theorem runTx_dev_shape (t : Tx) (s : St) :
    ∃ c, ((runTx t s).2).dev = { s.dev with ctrl := c } := by
  cases t with
  | write bytes =>
      simp only [runTx]
      split
      · exact writeReg_shape s.dev bytes
      · exact ⟨s.dev.ctrl, rfl⟩
  | writeThenRead w n => exact ⟨s.dev.ctrl, rfl⟩

theorem runTx_write_ok (bytes : List Nat) (s : St) (buf : List Nat) (s1 : St)
    (h : runTx (Tx.write bytes) s = (Except.ok buf, s1)) :
    s1 = { dev := writeReg s.dev bytes, mode := s.mode, txCount := s.txCount + 1,
           trace := s.trace ++ [Tx.write bytes] } := by
  by_cases hf : s.txCount ∈ s.dev.failAt
  · simp [runTx, hf] at h
  · simp [runTx, hf] at h
    exact h.2.symm

theorem runTx_read_ok (r n : Nat) (s : St) (buf : List Nat) (s1 : St)
    (h : runTx (Tx.writeThenRead [r] n) s = (Except.ok buf, s1)) :
    buf = (s.dev.regStream r).take n ∧
    s1 = { dev := s.dev, mode := s.mode, txCount := s.txCount + 1,
           trace := s.trace ++ [Tx.writeThenRead [r] n] } := by
  by_cases hf : s.txCount ∈ s.dev.failAt
  · simp [runTx, hf] at h
  · simp [runTx, hf] at h
    exact ⟨h.1.symm, h.2.symm⟩

/-! ### Bit-level lemmas about the mode byte -/

theorem testBit_128 (i : Nat) :
    Nat.testBit 128 i = decide (i = 7) := by
  rw [show (128 : Nat) = 2 ^ 7 by norm_num, Nat.testBit_two_pow]
  exact decide_eq_decide.mpr eq_comm

theorem modeByte_testBit_seven (b : Nat) (m : Mode) :
    (modeByte b m).testBit 7 = modeBit m := by
  have h255 : Nat.testBit 255 7 = true := by decide
  cases m <;>
    cases hb : Nat.testBit b 7 <;>
      simp [modeByte, negByte, modeBit, Nat.testBit_xor, Nat.testBit_and,
            testBit_128, h255, hb]

theorem modeByte_testBit_ne (b : Nat) (m : Mode) (i : Nat) (h : i ≠ 7) :
    (modeByte b m).testBit i = b.testBit i := by
  simp [modeByte, Nat.testBit_xor, Nat.testBit_and, testBit_128, h]

theorem modeByte_lt (b : Nat) (m : Mode) (h : b < 256) :
    modeByte b m < 256 := by
  have h2 : (negByte m ^^^ b) &&& (1 <<< 7) < 256 :=
    Nat.lt_of_le_of_lt Nat.and_le_right (by decide)
  exact Nat.xor_lt_two_pow (n := 8) h h2

theorem modeByte_and_low (b : Nat) (m : Mode) :
    modeByte b m &&& 127 = b &&& 127 := by
  apply Nat.eq_of_testBit_eq
  intro i
  by_cases h : i = 7
  · subst h
    have h127 : Nat.testBit 127 7 = false := by decide
    simp [Nat.testBit_and, h127]
  · simp only [Nat.testBit_and, modeByte_testBit_ne b m i h]

/-! ### Packing raw bytes: shift-or equals positional arithmetic -/

theorem or_small (x b k : Nat) (hx : 2 ^ k ∣ x) (hb : b < 2 ^ k) :
    x ||| b = x + b := by
  obtain ⟨a, ha⟩ := hx
  subst ha
  exact (Nat.mul_add_lt_is_or hb a).symm

theorem p_pack (b0 b1 b2 : Nat) (h1 : b1 < 256) (h2 : b2 < 256) :
    (b0 <<< 16 ||| b1 <<< 8 ||| b2) = b0 * 65536 + b1 * 256 + b2 := by
  have e0 : b0 <<< 16 = b0 * 65536 := by rw [Nat.shiftLeft_eq]
  have e1 : b1 <<< 8 = b1 * 256 := by rw [Nat.shiftLeft_eq]
  rw [e0, e1]
  have s1 : b0 * 65536 ||| b1 * 256 = b0 * 65536 + b1 * 256 := by
    apply or_small _ _ 16
    · exact ⟨b0, by ring⟩
    · omega
  rw [s1]
  apply or_small _ _ 8
  · apply Nat.dvd_add
    · exact ⟨b0 * 256, by ring⟩
    · exact ⟨b1, by ring⟩
  · omega


/-! ### Polling-loop lemmas: polls only read, preserving device and mode -/

theorem pollRst_spec (fuel : Nat) (s : St) :
    ((pollRstClear fuel s).2).dev = s.dev ∧
    ((pollRstClear fuel s).2).mode = s.mode ∧
    ∃ l, ((pollRstClear fuel s).2).trace = s.trace ++ l ∧
      ∀ t ∈ l, t = Tx.writeThenRead [CTRL_REG1] 1 := by
  induction fuel generalizing s with
  | zero => exact ⟨rfl, rfl, [], by simp [pollRstClear], by simp⟩
  | succ n ih =>
      by_cases hf : s.txCount ∈ s.dev.failAt
      · refine ⟨?_, ?_, [Tx.writeThenRead [CTRL_REG1] 1], ?_, by simp⟩ <;>
          simp [pollRstClear, runTx, hf]
      · by_cases hb : s.dev.ctrl &&& CTRL_REG1_RST = 0
        · refine ⟨?_, ?_, [Tx.writeThenRead [CTRL_REG1] 1], ?_, by simp⟩ <;>
            simp [pollRstClear, runTx, hf, regStream_ctrl, hb]
        · have hred : pollRstClear (n + 1) s =
              pollRstClear n ((runTx (Tx.writeThenRead [CTRL_REG1] 1) s).2) := by
            simp [pollRstClear, runTx, hf, regStream_ctrl, hb]
          rw [hred]
          obtain ⟨hd, hm, l, hl, hmem⟩ :=
            ih ((runTx (Tx.writeThenRead [CTRL_REG1] 1) s).2)
          refine ⟨hd, hm, Tx.writeThenRead [CTRL_REG1] 1 :: l, ?_, ?_⟩
          · rw [hl, runTx_trace]; simp
          · intro t ht
            rcases List.mem_cons.mp ht with h | h
            · exact h
            · exact hmem t h

theorem pollOst_spec (fuel : Nat) (s : St) :
    ((pollOstClear fuel s).2).dev = s.dev ∧
    ((pollOstClear fuel s).2).mode = s.mode ∧
    (∃ l, ((pollOstClear fuel s).2).trace = s.trace ++ l ∧
      ∀ t ∈ l, t = Tx.writeThenRead [CTRL_REG1] 1) ∧
    ∀ b s1, pollOstClear fuel s = (Except.ok b, s1) → b = s.dev.ctrl := by
  induction fuel generalizing s with
  | zero =>
      exact ⟨rfl, rfl, ⟨[], by simp [pollOstClear], by simp⟩,
        fun b s1 h => by simp [pollOstClear] at h⟩
  | succ n ih =>
      by_cases hf : s.txCount ∈ s.dev.failAt
      · refine ⟨?_, ?_, ⟨[Tx.writeThenRead [CTRL_REG1] 1], ?_, by simp⟩,
          fun b s1 h => ?_⟩
        · simp [pollOstClear, runTx, hf]
        · simp [pollOstClear, runTx, hf]
        · simp [pollOstClear, runTx, hf]
        · simp [pollOstClear, runTx, hf] at h
      · by_cases hb : s.dev.ctrl &&& CTRL_REG1_OST = 0
        · refine ⟨?_, ?_, ⟨[Tx.writeThenRead [CTRL_REG1] 1], ?_, by simp⟩,
            fun b s1 h => ?_⟩
          · simp [pollOstClear, runTx, hf, regStream_ctrl, hb]
          · simp [pollOstClear, runTx, hf, regStream_ctrl, hb]
          · simp [pollOstClear, runTx, hf, regStream_ctrl, hb]
          · simp [pollOstClear, runTx, hf, regStream_ctrl, hb] at h
            exact h.1.symm
        · have hred : pollOstClear (n + 1) s =
              pollOstClear n ((runTx (Tx.writeThenRead [CTRL_REG1] 1) s).2) := by
            simp [pollOstClear, runTx, hf, regStream_ctrl, hb]
          rw [hred]
          obtain ⟨hd, hm, ⟨l, hl, hmem⟩, hok⟩ :=
            ih ((runTx (Tx.writeThenRead [CTRL_REG1] 1) s).2)
          refine ⟨hd, hm, ⟨Tx.writeThenRead [CTRL_REG1] 1 :: l, ?_, ?_⟩,
            fun b s1 h => hok b s1 h⟩
          · rw [hl, runTx_trace]; simp
          · intro t ht
            rcases List.mem_cons.mp ht with h | h
            · exact h
            · exact hmem t h

theorem pollDR_spec (fuel : Nat) (s : St) :
    ((pollDataReady fuel s).2).dev = s.dev ∧
    ((pollDataReady fuel s).2).mode = s.mode ∧
    ∃ l, ((pollDataReady fuel s).2).trace = s.trace ++ l ∧
      ∀ t ∈ l, t = Tx.writeThenRead [STATUS_R] 1 := by
  induction fuel generalizing s with
  | zero => exact ⟨rfl, rfl, [], by simp [pollDataReady], by simp⟩
  | succ n ih =>
      by_cases hf : s.txCount ∈ s.dev.failAt
      · refine ⟨?_, ?_, [Tx.writeThenRead [STATUS_R] 1], ?_, by simp⟩ <;>
          simp [pollDataReady, check_data_ready_flag, runTx, hf]
      · by_cases hb : s.dev.status &&& STATUS_PTDR = 0
        · have hred : pollDataReady (n + 1) s =
              pollDataReady n ((runTx (Tx.writeThenRead [STATUS_R] 1) s).2) := by
            simp [pollDataReady, check_data_ready_flag, runTx, hf,
              regStream_status, hb]
          rw [hred]
          obtain ⟨hd, hm, l, hl, hmem⟩ :=
            ih ((runTx (Tx.writeThenRead [STATUS_R] 1) s).2)
          refine ⟨hd, hm, Tx.writeThenRead [STATUS_R] 1 :: l, ?_, ?_⟩
          · rw [hl, runTx_trace]; simp
          · intro t ht
            rcases List.mem_cons.mp ht with h | h
            · exact h
            · exact hmem t h
        · have hb' : (s.dev.status &&& STATUS_PTDR != 0) = true := by
            simpa using hb
          refine ⟨?_, ?_, [Tx.writeThenRead [STATUS_R] 1], ?_, by simp⟩ <;>
            simp [pollDataReady, check_data_ready_flag, runTx, hf,
              regStream_status, hb']

/-! ### ctrlWrites helpers -/

theorem ctrlWrites_append (l1 l2 : List Tx) :
    ctrlWrites (l1 ++ l2) = ctrlWrites l1 ++ ctrlWrites l2 := by
  induction l1 with
  | nil => simp [ctrlWrites]
  | cons t ts ih =>
      match t with
      | Tx.write [] => simpa [ctrlWrites] using ih
      | Tx.write [r] => simpa [ctrlWrites] using ih
      | Tx.write (r :: v :: rest) =>
          by_cases h : r = CTRL_REG1 <;>
            simp [ctrlWrites, h, ih]
      | Tx.writeThenRead w n => simpa [ctrlWrites] using ih

theorem ctrlWrites_of_reads (l : List Tx)
    (h : ∀ t ∈ l, ∃ w n, t = Tx.writeThenRead w n) :
    ctrlWrites l = [] := by
  induction l with
  | nil => rfl
  | cons t ts ih =>
      obtain ⟨w, n, hw⟩ := h t (List.mem_cons_self t ts)
      subst hw
      exact (ctrlWrites_append [Tx.writeThenRead w n] ts).symm.trans
        (by simpa [ctrlWrites] using ih fun t ht => h t (List.mem_cons_of_mem _ ht))

/-! ### Operation-level lemmas -/

theorem set_mode_ok (m : Mode) (s : St) (u : Unit) (s' : St)
    (h : set_mode m s = (Except.ok u, s')) :
    s' = { dev := { s.dev with ctrl := (modeByte s.dev.ctrl m &&& 0xF9) % 256 },
           mode := m, txCount := s.txCount + 2,
           trace := s.trace ++ [Tx.writeThenRead [CTRL_REG1] 1,
             Tx.write [CTRL_REG1, modeByte s.dev.ctrl m]] } := by
  by_cases hf1 : s.txCount ∈ s.dev.failAt
  · simp [set_mode, runTx, hf1] at h
  · by_cases hf2 : s.txCount + 1 ∈ s.dev.failAt
    · simp [set_mode, runTx, hf1, hf2, regStream_ctrl] at h
    · simp [set_mode, runTx, hf1, hf2, regStream_ctrl, writeReg] at h
      exact h.symm

theorem oneShot_ok (fuel : Nat) (s : St) (u : Unit) (s' : St)
    (h : initiate_one_shot fuel s = (Except.ok u, s')) :
    s'.dev = { s.dev with ctrl := ((s.dev.ctrl ||| (1 <<< 1)) &&& 0xF9) % 256 } ∧
    s'.mode = s.mode ∧
    ∃ l, s'.trace = s.trace ++ l ∧
      ctrlWrites l = [s.dev.ctrl ||| (1 <<< 1)] ∧
      ∀ t ∈ l, t = Tx.writeThenRead [CTRL_REG1] 1 ∨
        t = Tx.write [CTRL_REG1, s.dev.ctrl ||| (1 <<< 1)] := by
  obtain ⟨hd, hm, ⟨l0, hl0, hmem0⟩, hbv⟩ := pollOst_spec fuel s
  cases hp : pollOstClear fuel s with
  | mk pres s1 =>
    have hs1 : (pollOstClear fuel s).2 = s1 := congrArg Prod.snd hp
    cases pres with
    | error e => simp [initiate_one_shot, hp] at h
    | ok b =>
      have hb : b = s.dev.ctrl := hbv b s1 hp
      subst hb
      rw [hs1] at hd hm hl0
      by_cases hf : s1.txCount ∈ s1.dev.failAt
      · simp [initiate_one_shot, hp, runTx, hf] at h
      · simp [initiate_one_shot, hp, runTx, hf, writeReg] at h
        subst h
        refine ⟨by simp [hd], by simp [hm],
          l0 ++ [Tx.write [CTRL_REG1, s.dev.ctrl ||| (1 <<< 1)]], ?_, ?_, ?_⟩
        · simp [hl0]
        · rw [ctrlWrites_append,
            ctrlWrites_of_reads l0 fun t ht => ⟨_, _, hmem0 t ht⟩]
          simp [ctrlWrites]
        · intro t ht
          rcases List.mem_append.mp ht with h1 | h1
          · exact Or.inl (hmem0 t h1)
          · simp at h1
            exact Or.inr h1

/-! ### Device-shape lemmas: operations only ever modify control register 1 -/

theorem set_mode_dev_shape (m : Mode) (s : St) :
    ∃ c, ((set_mode m s).2).dev = { s.dev with ctrl := c } := by
  by_cases hf1 : s.txCount ∈ s.dev.failAt
  · exact ⟨s.dev.ctrl, by simp [set_mode, runTx, hf1]⟩
  · by_cases hf2 : s.txCount + 1 ∈ s.dev.failAt
    · exact ⟨s.dev.ctrl, by simp [set_mode, runTx, hf1, hf2, regStream_ctrl]⟩
    · exact ⟨(modeByte s.dev.ctrl m &&& 0xF9) % 256,
        by simp [set_mode, runTx, hf1, hf2, regStream_ctrl, writeReg]⟩

theorem oneShot_dev_shape (fuel : Nat) (s : St) :
    ∃ c, ((initiate_one_shot fuel s).2).dev = { s.dev with ctrl := c } := by
  obtain ⟨hd, hm, htr, hbv⟩ := pollOst_spec fuel s
  cases hp : pollOstClear fuel s with
  | mk pres s1 =>
    have hs1 : (pollOstClear fuel s).2 = s1 := congrArg Prod.snd hp
    rw [hs1] at hd
    cases pres with
    | error e => exact ⟨s.dev.ctrl, by simp [initiate_one_shot, hp, hd]⟩
    | ok b =>
      by_cases hf : s1.txCount ∈ s1.dev.failAt
      all_goals rw [hd] at hf
      · exact ⟨s.dev.ctrl, by simp [initiate_one_shot, hp, runTx, hf, hd]⟩
      · exact ⟨((b ||| (1 <<< 1)) &&& 0xF9) % 256,
          by simp [initiate_one_shot, hp, runTx, hf, writeReg, hd]⟩

theorem p_pre_barometer (fuel : Nat) (s : St) (h : s.mode = Mode.BAROMETER_M) :
    p_pre fuel s = initiate_one_shot fuel s := by
  simp [p_pre, h]

theorem a_pre_altimeter (fuel : Nat) (s : St) (h : s.mode = Mode.ALTIMETER_M) :
    a_pre fuel s = initiate_one_shot fuel s := by
  simp [a_pre, h]

theorem p_pre_dev_shape (fuel : Nat) (s : St) :
    ∃ c, ((p_pre fuel s).2).dev = { s.dev with ctrl := c } := by
  by_cases hm : s.mode = Mode.BAROMETER_M
  · rw [p_pre_barometer fuel s hm]
    exact oneShot_dev_shape fuel s
  · obtain ⟨c1, hc1⟩ := set_mode_dev_shape Mode.BAROMETER_M s
    cases hsm : set_mode Mode.BAROMETER_M s with
    | mk res s1 =>
      have hs1 : (set_mode Mode.BAROMETER_M s).2 = s1 := congrArg Prod.snd hsm
      rw [hs1] at hc1
      cases res with
      | error e => exact ⟨c1, by simp [p_pre, hm, hsm, hc1]⟩
      | ok u =>
        obtain ⟨c2, hc2⟩ := oneShot_dev_shape fuel s1
        refine ⟨c2, ?_⟩
        have : (p_pre fuel s).2 = (initiate_one_shot fuel s1).2 := by
          simp [p_pre, hm, hsm]
        rw [this, hc2, hc1]

theorem a_pre_dev_shape (fuel : Nat) (s : St) :
    ∃ c, ((a_pre fuel s).2).dev = { s.dev with ctrl := c } := by
  by_cases hm : s.mode = Mode.ALTIMETER_M
  · rw [a_pre_altimeter fuel s hm]
    exact oneShot_dev_shape fuel s
  · obtain ⟨c1, hc1⟩ := set_mode_dev_shape Mode.ALTIMETER_M s
    cases hsm : set_mode Mode.ALTIMETER_M s with
    | mk res s1 =>
      have hs1 : (set_mode Mode.ALTIMETER_M s).2 = s1 := congrArg Prod.snd hsm
      rw [hs1] at hc1
      cases res with
      | error e => exact ⟨c1, by simp [a_pre, hm, hsm, hc1]⟩
      | ok u =>
        obtain ⟨c2, hc2⟩ := oneShot_dev_shape fuel s1
        refine ⟨c2, ?_⟩
        have : (a_pre fuel s).2 = (initiate_one_shot fuel s1).2 := by
          simp [a_pre, hm, hsm]
        rw [this, hc2, hc1]

/-! ### State lemmas for the calibration setters and the status check -/

theorem seaP_state (p : ℚ) (s : St) :
    ((set_sea_pressure p s).2).dev = s.dev ∧
    ((set_sea_pressure p s).2).mode = s.mode ∧
    ((set_sea_pressure p s).2).trace = s.trace ++
      [Tx.write [BAR_IN_MSB_R, f2u16 (p / 2) >>> 8, f2u16 (p / 2) &&& 0xFF]] := by
  by_cases hf : s.txCount ∈ s.dev.failAt <;>
    refine ⟨?_, ?_, ?_⟩ <;>
      simp [set_sea_pressure, runTx, hf, writeReg, BAR_IN_MSB_R, CTRL_REG1]

theorem offset_state (off : Int) (s : St) :
    ((set_altitude_offset off s).2).dev = s.dev ∧
    ((set_altitude_offset off s).2).mode = s.mode := by
  by_cases hf : s.txCount ∈ s.dev.failAt <;>
    refine ⟨?_, ?_⟩ <;>
      simp [set_altitude_offset, runTx, hf, writeReg, OFF_H_R, CTRL_REG1]

theorem checkDR_state (s : St) :
    ((check_data_ready_flag s).2).dev = s.dev ∧
    ((check_data_ready_flag s).2).mode = s.mode := by
  by_cases hf : s.txCount ∈ s.dev.failAt <;>
    refine ⟨?_, ?_⟩ <;>
      simp [check_data_ready_flag, runTx, hf]

/-! ### Control-byte bit computations for the invariant -/

theorem inv_ctrl_oneshot (c : Nat) :
    ((c ||| (1 <<< 1)) &&& 0xF9) % 256 < 256 ∧
    Nat.testBit (((c ||| (1 <<< 1)) &&& 0xF9) % 256) 7 = Nat.testBit c 7 := by
  have hx : (c ||| (1 <<< 1)) &&& 0xF9 < 256 :=
    Nat.lt_of_le_of_lt Nat.and_le_right (by decide)
  rw [Nat.mod_eq_of_lt hx]
  refine ⟨hx, ?_⟩
  have h249 : Nat.testBit 249 7 = true := by decide
  have h2 : Nat.testBit 2 7 = false := by decide
  simp [Nat.testBit_and, Nat.testBit_or, h249, h2]

theorem inv_ctrl_setmode (b : Nat) (m : Mode) :
    (modeByte b m &&& 0xF9) % 256 < 256 ∧
    Nat.testBit ((modeByte b m &&& 0xF9) % 256) 7 = modeBit m := by
  have hx : modeByte b m &&& 0xF9 < 256 :=
    Nat.lt_of_le_of_lt Nat.and_le_right (by decide)
  rw [Nat.mod_eq_of_lt hx]
  refine ⟨hx, ?_⟩
  have h249 : Nat.testBit 249 7 = true := by decide
  simp [Nat.testBit_and, h249, modeByte_testBit_seven]

/-! ### Lemmas about the initialisation sequence -/

theorem begin_mismatch (fuel : Nat) (d : Dev)
    (hw : d.whoami ≠ 0xC4) (hf : 0 ∉ d.failAt) :
    begin fuel (St.init d) = (Except.ok false,
      { dev := d, mode := Mode.BAROMETER_M, txCount := 1,
        trace := [Tx.writeThenRead [WHOAMI_R] 1] }) := by
  simp [begin, runTx, St.init, hf, regStream_whoami, hw]

theorem begin_ok (fuel : Nat) (s : St) (s' : St)
    (h : begin fuel s = (Except.ok true, s')) :
    s'.mode = Mode.ALTIMETER_M ∧ s'.dev.ctrl = 0xB8 := by
  cases h1 : runTx (Tx.writeThenRead [WHOAMI_R] 1) s with
  | mk r1 s1 =>
    cases r1 with
    | error e => simp [begin, h1] at h
    | ok buf =>
      by_cases hw : buf[0]?.getD 0 = 0xC4
      case neg => simp [begin, h1, hw] at h
      case pos =>
        cases h2 : runTx (Tx.write [CTRL_REG1, CTRL_REG1_RST]) s1 with
          | mk r2 s2 =>
            cases r2 with
            | error e => simp [begin, h1, hw, h2] at h
            | ok buf2 =>
              cases h3 : pollRstClear fuel s2 with
              | mk r3 s3 =>
                cases r3 with
                | error e => simp [begin, h1, hw, h2, h3] at h
                | ok u3 =>
                  cases h4 : runTx
                      (Tx.write [CTRL_REG1, CTRL_REG1_OS128 ||| CTRL_REG1_ALT])
                      { s3 with mode := Mode.ALTIMETER_M } with
                  | mk r4 s4 =>
                    cases r4 with
                    | error e => simp [begin, h1, hw, h2, h3, h4] at h
                    | ok buf4 =>
                      have hs4 := runTx_write_ok _ _ _ _ h4
                      cases h5 : runTx (Tx.write [PT_DATA_CFG_R,
                          PT_DATA_CFG_TDEFE ||| PT_DATA_CFG_PDEFE |||
                            PT_DATA_CFG_DREM]) s4 with
                      | mk r5 s5 =>
                        cases r5 with
                        | error e => simp [begin, h1, hw, h2, h3, h4, h5] at h
                        | ok buf5 =>
                          have hs5 := runTx_write_ok _ _ _ _ h5
                          have hfin : s5 = s' := by
                            simp [begin, h1, hw, h2, h3, h4, h5] at h
                            exact h
                          rw [← hfin, hs5, hs4]
                          constructor
                          · simp [writeReg]
                          · simp [writeReg, PT_DATA_CFG_R, CTRL_REG1,
                              CTRL_REG1_OS128, CTRL_REG1_ALT]
                            try decide

/-! ### Decomposition of the measurement reads on the success path -/

theorem p_read_parts (fuel : Nat) (s : St) (r : ℚ) (s' : St)
    (h : p_read fuel s = (Except.ok r, s')) :
    ∃ u s1 v s2 buf,
      p_pre fuel s = (Except.ok u, s1) ∧
      pollDataReady fuel s1 = (Except.ok v, s2) ∧
      runTx (Tx.writeThenRead [OUT_P_MSB_R] 3) s2 = (Except.ok buf, s') ∧
      r = p_assemble (buf.getD 0 0) (buf.getD 1 0) (buf.getD 2 0) := by
  cases h1 : p_pre fuel s with
  | mk res1 s1 =>
    cases res1 with
    | error e => simp [p_read, h1] at h
    | ok u =>
      cases h2 : pollDataReady fuel s1 with
      | mk res2 s2 =>
        cases res2 with
        | error e => simp [p_read, h1, h2] at h
        | ok v =>
          cases h3 : runTx (Tx.writeThenRead [OUT_P_MSB_R] 3) s2 with
          | mk res3 s3 =>
            cases res3 with
            | error e => simp [p_read, h1, h2, h3] at h
            | ok buf =>
              simp only [p_read, h1, h2, h3, Prod.mk.injEq, Except.ok.injEq] at h
              refine ⟨u, s1, v, s2, buf, rfl, h2, ?_, ?_⟩
              · rw [h3, h.2]
              · exact h.1.symm

theorem a_read_parts (fuel : Nat) (s : St) (r : ℚ) (s' : St)
    (h : a_read fuel s = (Except.ok r, s')) :
    ∃ u s1 v s2 buf,
      a_pre fuel s = (Except.ok u, s1) ∧
      pollDataReady fuel s1 = (Except.ok v, s2) ∧
      runTx (Tx.writeThenRead [OUT_P_MSB_R] 3) s2 = (Except.ok buf, s') ∧
      r = a_assemble (buf.getD 0 0) (buf.getD 1 0) (buf.getD 2 0) := by
  cases h1 : a_pre fuel s with
  | mk res1 s1 =>
    cases res1 with
    | error e => simp [a_read, h1] at h
    | ok u =>
      cases h2 : pollDataReady fuel s1 with
      | mk res2 s2 =>
        cases res2 with
        | error e => simp [a_read, h1, h2] at h
        | ok v =>
          cases h3 : runTx (Tx.writeThenRead [OUT_P_MSB_R] 3) s2 with
          | mk res3 s3 =>
            cases res3 with
            | error e => simp [a_read, h1, h2, h3] at h
            | ok buf =>
              simp only [a_read, h1, h2, h3, Prod.mk.injEq, Except.ok.injEq] at h
              refine ⟨u, s1, v, s2, buf, rfl, h2, ?_, ?_⟩
              · rw [h3, h.2]
              · exact h.1.symm

theorem t_read_parts (fuel : Nat) (s : St) (r : Option ℚ) (s' : St)
    (h : t_read fuel s = (Except.ok r, s')) :
    ∃ u s1 v s2 buf,
      initiate_one_shot fuel s = (Except.ok u, s1) ∧
      pollDataReady fuel s1 = (Except.ok v, s2) ∧
      runTx (Tx.writeThenRead [OUT_T_MSB_R] 2) s2 = (Except.ok buf, s') ∧
      r = t_assemble buf := by
  cases h1 : initiate_one_shot fuel s with
  | mk res1 s1 =>
    cases res1 with
    | error e => simp [t_read, h1] at h
    | ok u =>
      cases h2 : pollDataReady fuel s1 with
      | mk res2 s2 =>
        cases res2 with
        | error e => simp [t_read, h1, h2] at h
        | ok v =>
          cases h3 : runTx (Tx.writeThenRead [OUT_T_MSB_R] 2) s2 with
          | mk res3 s3 =>
            cases res3 with
            | error e => simp [t_read, h1, h2, h3] at h
            | ok buf =>
              simp only [t_read, h1, h2, h3, Prod.mk.injEq, Except.ok.injEq] at h
              refine ⟨u, s1, v, s2, buf, rfl, h2, ?_, ?_⟩
              · rw [h3, h.2]
              · exact h.1.symm

/-! ### Invariant preservation helpers -/

theorem Inv_transfer (s s' : St) (hd : s'.dev.ctrl = s.dev.ctrl)
    (hm : s'.mode = s.mode) (h : Inv s) : Inv s' := by
  unfold Inv at *
  rw [hd, hm]
  exact h

theorem inv_set_mode (m : Mode) (s : St) (u : Unit) (s' : St)
    (h : set_mode m s = (Except.ok u, s')) : Inv s' := by
  have hs := set_mode_ok m s u s' h
  subst hs
  exact ⟨(inv_ctrl_setmode s.dev.ctrl m).1, (inv_ctrl_setmode s.dev.ctrl m).2⟩

theorem inv_oneShot (fuel : Nat) (s : St) (u : Unit) (s' : St)
    (hInv : Inv s) (h : initiate_one_shot fuel s = (Except.ok u, s')) :
    Inv s' := by
  obtain ⟨hd, hm, -⟩ := oneShot_ok fuel s u s' h
  have hc : s'.dev.ctrl = ((s.dev.ctrl ||| (1 <<< 1)) &&& 0xF9) % 256 := by
    rw [hd]
  refine ⟨?_, ?_⟩
  · rw [hc]
    exact (inv_ctrl_oneshot s.dev.ctrl).1
  · rw [hc, hm, (inv_ctrl_oneshot s.dev.ctrl).2]
    exact hInv.2

theorem inv_p_pre (fuel : Nat) (s : St) (u : Unit) (s1 : St)
    (hInv : Inv s) (h : p_pre fuel s = (Except.ok u, s1)) : Inv s1 := by
  by_cases hm : s.mode = Mode.BAROMETER_M
  · rw [p_pre_barometer fuel s hm] at h
    exact inv_oneShot fuel s u s1 hInv h
  · cases hsm : set_mode Mode.BAROMETER_M s with
    | mk res s0 =>
      cases res with
      | error e => simp [p_pre, hm, hsm] at h
      | ok u0 =>
          have h1 : initiate_one_shot fuel s0 = (Except.ok u, s1) := by
            simpa [p_pre, hm, hsm] using h
          exact inv_oneShot fuel s0 u s1
            (inv_set_mode Mode.BAROMETER_M s u0 s0 hsm) h1

theorem inv_a_pre (fuel : Nat) (s : St) (u : Unit) (s1 : St)
    (hInv : Inv s) (h : a_pre fuel s = (Except.ok u, s1)) : Inv s1 := by
  by_cases hm : s.mode = Mode.ALTIMETER_M
  · rw [a_pre_altimeter fuel s hm] at h
    exact inv_oneShot fuel s u s1 hInv h
  · cases hsm : set_mode Mode.ALTIMETER_M s with
    | mk res s0 =>
      cases res with
      | error e => simp [a_pre, hm, hsm] at h
      | ok u0 =>
          have h1 : initiate_one_shot fuel s0 = (Except.ok u, s1) := by
            simpa [a_pre, hm, hsm] using h
          exact inv_oneShot fuel s0 u s1
            (inv_set_mode Mode.ALTIMETER_M s u0 s0 hsm) h1

theorem inv_pollDR (fuel : Nat) (s1 : St) (v : Unit) (s2 : St)
    (hInv : Inv s1) (h : pollDataReady fuel s1 = (Except.ok v, s2)) :
    Inv s2 := by
  have hs2 : (pollDataReady fuel s1).2 = s2 := congrArg Prod.snd h
  obtain ⟨hd, hm, -⟩ := pollDR_spec fuel s1
  rw [hs2] at hd hm
  exact Inv_transfer s1 s2 (by rw [hd]) hm hInv

theorem inv_read_tx (r n : Nat) (s2 : St) (buf : List Nat) (s' : St)
    (hInv : Inv s2) (h : runTx (Tx.writeThenRead [r] n) s2 = (Except.ok buf, s')) :
    Inv s' := by
  obtain ⟨-, hs⟩ := runTx_read_ok r n s2 buf s' h
  subst hs
  exact Inv_transfer s2 _ rfl rfl hInv

theorem create_ok (fuel : Nat) (d : Dev) (u : Unit) (s' : St)
    (h : create fuel d = (Except.ok u, s')) :
    begin fuel (St.init d) = (Except.ok true, s') := by
  cases hb : begin fuel (St.init d) with
  | mk res s0 =>
    cases res with
    | error e =>
        cases e <;> simp [create, hb] at h
    | ok bl =>
        cases bl with
        | false => simp [create, hb] at h
        | true =>
            simp [create, hb] at h
            rw [h]

theorem p_pre_ok_trace (fuel : Nat) (s : St) (u : Unit) (s1 : St)
    (h : p_pre fuel s = (Except.ok u, s1)) :
    ∃ l, s1.trace = s.trace ++ l ∧
      ∀ t ∈ l, (∃ bytes, t = Tx.write bytes) ∨
        t = Tx.writeThenRead [CTRL_REG1] 1 := by
  by_cases hm : s.mode = Mode.BAROMETER_M
  · rw [p_pre_barometer fuel s hm] at h
    obtain ⟨-, -, l, hl, -, hmem⟩ := oneShot_ok fuel s u s1 h
    exact ⟨l, hl, fun t ht =>
      (hmem t ht).elim (fun h1 => Or.inr h1) (fun h1 => Or.inl ⟨_, h1⟩)⟩
  · cases hsm : set_mode Mode.BAROMETER_M s with
    | mk res s0 =>
      cases res with
      | error e => simp [p_pre, hm, hsm] at h
      | ok u0 =>
          have h1 : initiate_one_shot fuel s0 = (Except.ok u, s1) := by
            simpa [p_pre, hm, hsm] using h
          have hs0 := set_mode_ok Mode.BAROMETER_M s u0 s0 hsm
          obtain ⟨-, -, l, hl, -, hmem⟩ := oneShot_ok fuel s0 u s1 h1
          refine ⟨[Tx.writeThenRead [CTRL_REG1] 1,
            Tx.write [CTRL_REG1, modeByte s.dev.ctrl Mode.BAROMETER_M]] ++ l,
            ?_, ?_⟩
          · rw [hl, hs0]
            simp
          · intro t ht
            rcases List.mem_append.mp ht with h2 | h2
            · rcases List.mem_cons.mp h2 with h2 | h2
              · exact Or.inr h2
              · rcases List.mem_cons.mp h2 with h2 | h2
                · exact Or.inl ⟨_, h2⟩
                · cases h2
            · exact (hmem t h2).elim (fun hx => Or.inr hx)
                (fun hx => Or.inl ⟨_, hx⟩)

/-! ### Claim theorems -/

/-- Claim C1 (code bug): the spec says `read_temperature` returns the 16-bit
signed value (MSB shifted left 8, ORed with LSB) divided by 256.0, returning
26.0 for raw bytes 0x1A 0x00.  The source instead indexes `temp_buffer[4]`
in a 2-byte buffer (line 105), an out-of-bounds access; in the total
embedding the assembly yields `none` instead of 26, for the spec's own
example bytes and on the full driver path. -/
theorem c1_t_read_raw_conversion :
    t_assemble [0x1A, 0x00] = none ∧
    (t_read 1 stB).1 = Except.ok none :=
  ⟨rfl, rfl⟩

/-- Claim C2 (code bug): every index used by `t_read` on its 2-byte buffer
should be in bounds, but the access `temp_buffer[4]` (line 105) is out of
bounds for every 2-byte buffer: the total embedding always hits the `none`
branch. -/
theorem c2_t_read_index_in_bounds :
    ∀ b0 b1 : Nat, t_assemble [b0, b1] = none :=
  fun b0 b1 => rfl

/-- Claim C3 (code bug): the spec says `read_altitude` sign-extends the
20-bit raw value and returns a negative altitude whenever bit 7 of the MSB
is set.  The source declares `alt_reading` as `uint32_t` (line 151), so the
cast to float is unsigned: the result is never negative, and for bytes
0xFF 0xFF 0x00 the code yields 65535.0 where the claim demands -1.0. -/
theorem c3_a_read_sign :
    a_assemble 0xFF 0xFF 0x00 = 65535 ∧
    (∀ b0 b1 b2 : Nat, (0 : ℚ) ≤ a_assemble b0 b1 b2) ∧
    (a_read 1 stA).1 = Except.ok 65535 := by
  have hnat : ((255 <<< 24 ||| 255 <<< 16 ||| 0 <<< 8) % 4294967296 : Nat) =
      4294901760 := by decide
  refine ⟨?_, ?_, ?_⟩
  · unfold a_assemble
    rw [hnat]
    norm_num
  · intro b0 b1 b2
    unfold a_assemble
    exact div_nonneg (Nat.cast_nonneg _) (by norm_num)
  · have h : (a_read 1 stA).1 = Except.ok (a_assemble 255 255 0) := rfl
    rw [h]
    unfold a_assemble
    rw [hnat]
    norm_num

/-- Claim C4 (confirmed, spec-modelled create): if the identity register
returns a byte other than 0xC4 (and the identity transaction itself
succeeds), `create` fails with `UnexpectedDevice` and the bus trace consists
of exactly the identity transaction: no further write is issued. -/
theorem c4_create_unexpected_device :
    ∀ (fuel : Nat) (d : Dev), d.whoami ≠ 0xC4 → 0 ∉ d.failAt →
      (create fuel d).1 = Except.error CreateErr.UnexpectedDevice ∧
      (create fuel d).2.trace = [Tx.writeThenRead [WHOAMI_R] 1] := by
  intro fuel d hw hf
  have hb := begin_mismatch fuel d hw hf
  constructor <;> simp [create, hb]

/-- Witness for C4 at a concrete device whose identity byte is 0x00. -/
theorem c4_witness :
    (create 1 devBad).1 = Except.error CreateErr.UnexpectedDevice ∧
    (create 1 devBad).2.trace = [Tx.writeThenRead [WHOAMI_R] 1] :=
  c4_create_unexpected_device 1 devBad (by decide) (by decide)

/-- Claim C5 (confirmed): when the tracked mode is already Barometer, a
successful `read_pressure` issues exactly one write to control register 1,
namely the one-shot trigger write, whose byte leaves the mode bit (bit 7)
unchanged - no mode-changing write happens; an explicit `set_mode` issues
its mode write unconditionally. -/
theorem c5_p_read_no_mode_write :
    (∀ (fuel : Nat) (s : St) (r : ℚ) (s' : St),
        s.mode = Mode.BAROMETER_M → p_read fuel s = (Except.ok r, s') →
        ctrlWrites (s'.trace.drop s.trace.length) =
          [s.dev.ctrl ||| (1 <<< 1)] ∧
        Nat.testBit (s.dev.ctrl ||| (1 <<< 1)) 7 = Nat.testBit s.dev.ctrl 7) ∧
    (∀ (m : Mode) (s : St) (u : Unit) (s' : St),
        set_mode m s = (Except.ok u, s') →
        ctrlWrites (s'.trace.drop s.trace.length) =
          [modeByte s.dev.ctrl m]) := by
  constructor
  · intro fuel s r s' hm h
    obtain ⟨u, s1, v, s2, buf, h1, h2, h3, -⟩ := p_read_parts fuel s r s' h
    rw [p_pre_barometer fuel s hm] at h1
    obtain ⟨-, -, l1, hl1, hcw1, -⟩ := oneShot_ok fuel s u s1 h1
    have hs2 : (pollDataReady fuel s1).2 = s2 := congrArg Prod.snd h2
    obtain ⟨-, -, l2, hl2, hmem2⟩ := pollDR_spec fuel s1
    rw [hs2] at hl2
    obtain ⟨-, hs'⟩ := runTx_read_ok _ _ _ _ _ h3
    constructor
    · have htr : s'.trace =
          s.trace ++ (l1 ++ (l2 ++ [Tx.writeThenRead [OUT_P_MSB_R] 3])) := by
        rw [hs']
        simp [hl2, hl1]
      rw [htr, List.drop_left, ctrlWrites_append, ctrlWrites_append, hcw1,
        ctrlWrites_of_reads l2 (fun t ht => ⟨_, _, hmem2 t ht⟩)]
      simp [ctrlWrites]
    · have h2b : Nat.testBit 2 7 = false := by decide
      rw [show (1 <<< 1 : Nat) = 2 from rfl, Nat.testBit_or, h2b,
        Bool.or_false]
  · intro m s u s' h
    have hs := set_mode_ok m s u s' h
    subst hs
    simp only [List.drop_left]
    simp [ctrlWrites]

/-- Witness for C5: a concrete healthy device in barometer mode, and a
concrete explicit set_mode call. -/
theorem c5_witness :
    (ctrlWrites (((p_read 1 stB).2).trace.drop stB.trace.length) =
      [stB.dev.ctrl ||| (1 <<< 1)] ∧
     Nat.testBit (stB.dev.ctrl ||| (1 <<< 1)) 7 = Nat.testBit stB.dev.ctrl 7) ∧
    ctrlWrites (((set_mode Mode.ALTIMETER_M stB).2).trace.drop
      stB.trace.length) = [modeByte stB.dev.ctrl Mode.ALTIMETER_M] := by
  constructor
  · apply c5_p_read_no_mode_write.1 1 stB 1024 ((p_read 1 stB).2) rfl
    refine Prod.ext ?_ rfl
    have h : (p_read 1 stB).1 = Except.ok (p_assemble 1 0 0) := rfl
    have hnat : ((1 <<< 16 ||| 0 <<< 8 ||| 0) % 4294967296 : Nat) = 65536 := by
      decide
    rw [h]
    unfold p_assemble
    rw [hnat]
    norm_num
  · exact c5_p_read_no_mode_write.2 Mode.ALTIMETER_M stB ()
      ((set_mode Mode.ALTIMETER_M stB).2) rfl

/-- Claim C6 (confirmed): for every byte read back from control register 1
(the simulated register value, a byte below 256), `set_mode` writes back a
byte that agrees with the read byte on all bits except possibly bit 7, with
bit 7 forced to the target mode, and afterwards the tracked mode equals the
target. -/
theorem c6_set_mode_frame :
    ∀ (m : Mode) (s : St) (u : Unit) (s' : St), s.dev.ctrl < 256 →
      set_mode m s = (Except.ok u, s') →
      s'.trace = s.trace ++ [Tx.writeThenRead [CTRL_REG1] 1,
        Tx.write [CTRL_REG1, modeByte s.dev.ctrl m]] ∧
      modeByte s.dev.ctrl m < 256 ∧
      modeByte s.dev.ctrl m &&& 127 = s.dev.ctrl &&& 127 ∧
      Nat.testBit (modeByte s.dev.ctrl m) 7 = modeBit m ∧
      s'.mode = m := by
  intro m s u s' hb h
  have hs := set_mode_ok m s u s' h
  subst hs
  exact ⟨rfl, modeByte_lt s.dev.ctrl m hb, modeByte_and_low s.dev.ctrl m,
    modeByte_testBit_seven s.dev.ctrl m, rfl⟩

/-- Witness for C6 at a concrete state with control byte 0. -/
theorem c6_witness :
    ((set_mode Mode.ALTIMETER_M stB).2).trace = stB.trace ++
      [Tx.writeThenRead [CTRL_REG1] 1,
       Tx.write [CTRL_REG1, modeByte stB.dev.ctrl Mode.ALTIMETER_M]] ∧
    modeByte stB.dev.ctrl Mode.ALTIMETER_M < 256 ∧
    modeByte stB.dev.ctrl Mode.ALTIMETER_M &&& 127 = stB.dev.ctrl &&& 127 ∧
    Nat.testBit (modeByte stB.dev.ctrl Mode.ALTIMETER_M) 7 =
      modeBit Mode.ALTIMETER_M ∧
    ((set_mode Mode.ALTIMETER_M stB).2).mode = Mode.ALTIMETER_M :=
  c6_set_mode_frame Mode.ALTIMETER_M stB ()
    ((set_mode Mode.ALTIMETER_M stB).2) (by decide) rfl

/-- Claim C7 (confirmed): if, after a successful preamble (mode switch if
needed plus one-shot trigger), a write-then-read transaction of the
data-ready polling loop fails on the bus, `read_pressure` returns the
transport error (busError) and the output-register read transaction is
never issued. -/
theorem c7_p_read_bus_error_propagation :
    ∀ (fuel : Nat) (s : St) (u : Unit) (s1 s2 : St),
      p_pre fuel s = (Except.ok u, s1) →
      pollDataReady fuel s1 = (Except.error Err.busError, s2) →
      p_read fuel s = (Except.error Err.busError, s2) ∧
      Tx.writeThenRead [OUT_P_MSB_R] 3 ∉ s2.trace.drop s.trace.length := by
  intro fuel s u s1 s2 h1 h2
  constructor
  · simp [p_read, h1, h2]
  · obtain ⟨l1, hl1, hmem1⟩ := p_pre_ok_trace fuel s u s1 h1
    have hs2 : (pollDataReady fuel s1).2 = s2 := congrArg Prod.snd h2
    obtain ⟨-, -, l2, hl2, hmem2⟩ := pollDR_spec fuel s1
    rw [hs2] at hl2
    rw [hl2, hl1, List.append_assoc, List.drop_left]
    intro hmem
    rcases List.mem_append.mp hmem with hmem | hmem
    · rcases hmem1 _ hmem with ⟨bytes, hb⟩ | hb <;>
        simp [CTRL_REG1, OUT_P_MSB_R] at hb
    · have hx := hmem2 _ hmem
      simp [STATUS_R, OUT_P_MSB_R] at hx

/-- Witness for C7: a concrete device that fails the bus on the first
status-register read of the data-ready poll. -/
theorem c7_witness :
    p_read 1 stFail = (Except.error Err.busError,
      (pollDataReady 1 (p_pre 1 stFail).2).2) ∧
    Tx.writeThenRead [OUT_P_MSB_R] 3 ∉
      ((pollDataReady 1 (p_pre 1 stFail).2).2).trace.drop
        stFail.trace.length :=
  c7_p_read_bus_error_propagation 1 stFail () ((p_pre 1 stFail).2)
    ((pollDataReady 1 (p_pre 1 stFail).2).2) rfl rfl

/-- Claim C8 (confirmed): after a successful `create` and after every
successful `set_mode`, the tracked sensing mode agrees with the
altitude-mode bit of the control-register byte last written by the driver
(held by the simulated device, absent out-of-band writes), and every other
driver operation preserves this invariant. -/
theorem c8_mode_invariant :
    (∀ (fuel : Nat) (d : Dev) (u : Unit) (s' : St),
        create fuel d = (Except.ok u, s') → Inv s') ∧
    (∀ (m : Mode) (s : St) (u : Unit) (s' : St),
        set_mode m s = (Except.ok u, s') → Inv s') ∧
    (∀ (fuel : Nat) (s : St) (u : Unit) (s' : St), Inv s →
        initiate_one_shot fuel s = (Except.ok u, s') → Inv s') ∧
    (∀ (s : St) (b : Bool) (s' : St), Inv s →
        check_data_ready_flag s = (Except.ok b, s') → Inv s') ∧
    (∀ (fuel : Nat) (s : St) (r : Option ℚ) (s' : St), Inv s →
        t_read fuel s = (Except.ok r, s') → Inv s') ∧
    (∀ (fuel : Nat) (s : St) (r : ℚ) (s' : St), Inv s →
        p_read fuel s = (Except.ok r, s') → Inv s') ∧
    (∀ (fuel : Nat) (s : St) (r : ℚ) (s' : St), Inv s →
        a_read fuel s = (Except.ok r, s') → Inv s') ∧
    (∀ (p : ℚ) (s : St) (u : Unit) (s' : St), Inv s →
        set_sea_pressure p s = (Except.ok u, s') → Inv s') ∧
    (∀ (off : Int) (s : St) (u : Unit) (s' : St), Inv s →
        set_altitude_offset off s = (Except.ok u, s') → Inv s') := by
  refine ⟨?_, ?_, ?_, ?_, ?_, ?_, ?_, ?_, ?_⟩
  · intro fuel d u s' h
    obtain ⟨hm, hc⟩ := begin_ok fuel (St.init d) s' (create_ok fuel d u s' h)
    exact ⟨by rw [hc]; norm_num, by rw [hc, hm]; decide⟩
  · intro m s u s' h
    exact inv_set_mode m s u s' h
  · intro fuel s u s' hInv h
    exact inv_oneShot fuel s u s' hInv h
  · intro s b s' hInv h
    have hs : (check_data_ready_flag s).2 = s' := congrArg Prod.snd h
    obtain ⟨hd, hm⟩ := checkDR_state s
    rw [hs] at hd hm
    exact Inv_transfer s s' (by rw [hd]) hm hInv
  · intro fuel s r s' hInv h
    obtain ⟨u, s1, v, s2, buf, h1, h2, h3, -⟩ := t_read_parts fuel s r s' h
    exact inv_read_tx _ _ _ _ _
      (inv_pollDR _ _ _ _ (inv_oneShot _ _ _ _ hInv h1) h2) h3
  · intro fuel s r s' hInv h
    obtain ⟨u, s1, v, s2, buf, h1, h2, h3, -⟩ := p_read_parts fuel s r s' h
    exact inv_read_tx _ _ _ _ _
      (inv_pollDR _ _ _ _ (inv_p_pre _ _ _ _ hInv h1) h2) h3
  · intro fuel s r s' hInv h
    obtain ⟨u, s1, v, s2, buf, h1, h2, h3, -⟩ := a_read_parts fuel s r s' h
    exact inv_read_tx _ _ _ _ _
      (inv_pollDR _ _ _ _ (inv_a_pre _ _ _ _ hInv h1) h2) h3
  · intro p s u s' hInv h
    have hs : (set_sea_pressure p s).2 = s' := congrArg Prod.snd h
    obtain ⟨hd, hm, -⟩ := seaP_state p s
    rw [hs] at hd hm
    exact Inv_transfer s s' (by rw [hd]) hm hInv
  · intro off s u s' hInv h
    have hs : (set_altitude_offset off s).2 = s' := congrArg Prod.snd h
    obtain ⟨hd, hm⟩ := offset_state off s
    rw [hs] at hd hm
    exact Inv_transfer s s' (by rw [hd]) hm hInv

/-- Witness for C8: the invariant holds concretely after a successful
create and after a successful explicit set_mode. -/
theorem c8_witness :
    Inv ((create 2 devGood).2) ∧ Inv ((set_mode Mode.ALTIMETER_M stB).2) :=
  ⟨c8_mode_invariant.1 2 devGood () ((create 2 devGood).2) rfl,
   c8_mode_invariant.2.1 Mode.ALTIMETER_M stB ()
     ((set_mode Mode.ALTIMETER_M stB).2) rfl⟩

/-- Claim C9 (confirmed): for every triple of pressure output bytes,
`read_pressure` returns the unsigned packed value MSB shifted 16 ORed with
CSB shifted 8 ORed with LSB, divided by 64, both at the level of the raw
assembly and end to end through the driver. -/
theorem c9_pressure_conversion :
    (∀ b0 b1 b2 : Nat, b0 < 256 → b1 < 256 → b2 < 256 →
        p_assemble b0 b1 b2 =
          ((b0 * 65536 + b1 * 256 + b2 : Nat) : ℚ) / 64) ∧
    (∀ (fuel : Nat) (s : St) (r : ℚ) (s' : St),
        s.dev.outP0 < 256 → s.dev.outP1 < 256 → s.dev.outP2 < 256 →
        p_read fuel s = (Except.ok r, s') →
        r = ((s.dev.outP0 * 65536 + s.dev.outP1 * 256 + s.dev.outP2 : Nat) :
          ℚ) / 64) := by
  have hassem : ∀ b0 b1 b2 : Nat, b0 < 256 → b1 < 256 → b2 < 256 →
      p_assemble b0 b1 b2 = ((b0 * 65536 + b1 * 256 + b2 : Nat) : ℚ) / 64 := by
    intro b0 b1 b2 h0 h1 h2
    unfold p_assemble
    rw [p_pack b0 b1 b2 h1 h2, Nat.mod_eq_of_lt (by omega)]
  refine ⟨hassem, ?_⟩
  intro fuel s r s' h0 h1 h2 h
  obtain ⟨u, s1, v, s2, buf, hp1, hp2, hp3, hr⟩ := p_read_parts fuel s r s' h
  obtain ⟨c, hc⟩ := p_pre_dev_shape fuel s
  have hs1 : (p_pre fuel s).2 = s1 := congrArg Prod.snd hp1
  rw [hs1] at hc
  have hs2 : (pollDataReady fuel s1).2 = s2 := congrArg Prod.snd hp2
  obtain ⟨hd2, -, -⟩ := pollDR_spec fuel s1
  rw [hs2] at hd2
  obtain ⟨hbuf, -⟩ := runTx_read_ok _ _ _ _ _ hp3
  have houts : s2.dev.outP0 = s.dev.outP0 ∧ s2.dev.outP1 = s.dev.outP1 ∧
      s2.dev.outP2 = s.dev.outP2 := by
    rw [hd2, hc]
    exact ⟨rfl, rfl, rfl⟩
  rw [hr, hbuf, regStream_outP]
  simp only [List.take_succ_cons, List.take_zero, List.getD_cons_zero,
    List.getD_cons_succ]
  rw [houts.1, houts.2.1, houts.2.2]
  exact hassem _ _ _ h0 h1 h2

/-- Witness for C9: the raw assembly at the spec's example bytes
0x01 0x00 0x00, and the driver end to end on a concrete device holding
those output bytes. -/
theorem c9_witness :
    p_assemble 1 0 0 = ((1 * 65536 + 0 * 256 + 0 : Nat) : ℚ) / 64 :=
  c9_pressure_conversion.1 1 0 0 (by decide) (by decide) (by decide)

/-- Claim C10 (confirmed): `set_sea_pressure` divides the input by 2,
truncates to a 16-bit unsigned value, and writes the high byte then the low
byte to the sea-level-pressure input registers in a single bus transaction;
for input 101326.0 the truncated value is 50663 with MSB 197 and LSB 231. -/
theorem c10_set_sea_pressure :
    (∀ (p : ℚ) (s : St), ((set_sea_pressure p s).2).trace = s.trace ++
        [Tx.write [BAR_IN_MSB_R, f2u16 (p / 2) >>> 8,
          f2u16 (p / 2) &&& 0xFF]]) ∧
    f2u16 ((101326 : ℚ) / 2) = 50663 ∧
    f2u16 ((101326 : ℚ) / 2) >>> 8 = 197 ∧
    f2u16 ((101326 : ℚ) / 2) &&& 0xFF = 231 := by
  have h : (101326 : ℚ) / 2 = 50663 := by norm_num
  refine ⟨fun p s => (seaP_state p s).2.2, ?_, ?_, ?_⟩ <;>
    rw [h] <;> decide

end Mpl311
